import Mathlib

/-!
Verification of the Antora support module of `asciidoctor-vscode`
(`antoraSupport.ts` plus `util/file.ts`).

Shallow embedding conventions:
* JavaScript strings (filesystem paths, identifiers) are `List Char`; a string
  literal `"x"` enters as `"x".data`.
* `undefined`-able values are `Option`; a thrown JavaScript exception is the
  `Except.error` side of `Except JsError`.
* External collaborators (the `vscode` workspace, `js-yaml`, the Antora
  aggregation / classification libraries, Node's `path` module) are passed in
  as function parameters or modelled by small faithful functions, as noted on
  each definition.
* `console.log` side effects relevant to the claims are returned as an
  explicit list of logged errors.
-/

namespace AntoraSupport

/-- Model of Node's `path.posix.dirname`: everything before the final `/` of
the path; `"."` when there is no `/`, `"/"` when the final `/` is the first
character (matching Node, which returns the leading slash alone). -/
def dirname (p : List Char) : List Char :=
  match p.reverse.dropWhile (fun c => decide (c ≠ '/')) with
  | [] => ".".data
  | ['/'] => "/".data
  | _ :: t => t.reverse

/-- Path of `antora.yml` placed in the directory `root`, as found by the workspace
file search `findFiles('**/antora.yml', ...)`. -/
def antoraYmlAt (root : List Char) : List Char :=
  root ++ "/antora.yml".data

/-- Model of `path.join(dir, 'modules')` for a directory that does not end in `/`
(the output shape of `dirname` on a non-root config path): plain
concatenation with a separator. -/
def modulesPathOf (antoraConfigPath : List Char) : List Char :=
  dirname antoraConfigPath ++ "/modules".data

/-- The regular-expression test `remainder.match(/^\/[^\/]+\/pages\/.*/)` of
`getAntoraConfig`, read off the regex: the remainder must start with `/`,
then a nonempty run of non-`/` characters (the module segment, taken
greedily, which is the only possible match since the following literal `/`
cannot be produced by shortening the run), then the literal `/pages/`; the
trailing `.*` constrains nothing because `match` only asks for a match
somewhere. -/
def matchModulePages : List Char → Bool
  | [] => false
  | c :: cs =>
      decide (c = '/') &&
      (!(cs.takeWhile (fun ch => decide (ch ≠ '/'))).isEmpty &&
        "/pages/".data.isPrefixOf (cs.dropWhile (fun ch => decide (ch ≠ '/'))))

/-- The per-candidate test of the loop in `getAntoraConfig`:
`pathToAsciidocFile.startsWith(modulesPath) &&
 pathToAsciidocFile.slice(modulesPath.length).match(/^\/[^\/]+\/pages\/.*/)`. -/
def isApplicable (antoraConfigPath docPath : List Char) : Bool :=
  (modulesPathOf antoraConfigPath).isPrefixOf docPath &&
    matchModulePages (docPath.drop (modulesPathOf antoraConfigPath).length)

/-- Function `getAntoraConfig`: walk the candidate configuration files in search order
and return the first applicable one, else `undefined`. The workspace file
search result is the parameter `antoraConfigs`. -/
def getAntoraConfig (docPath : List Char) (antoraConfigs : List (List Char)) :
    Option (List Char) :=
  antoraConfigs.find? (fun c => isApplicable c docPath)

/-- Function `antoraConfigExists`: the located config is not `undefined`. -/
def antoraConfigExists (docPath : List Char) (antoraConfigs : List (List Char)) : Bool :=
  (getAntoraConfig docPath antoraConfigs).isSome

/-- JavaScript exception values that the fragment distinguishes: the internal
`AntoraDisabledError` class, the `TypeError` of a property access on
`undefined`, and every other error (carrying its message). -/
inductive JsError where
  | antoraDisabled : JsError
  | typeError : JsError
  | other : List Char → JsError
deriving DecidableEq, Repr

/-- The `asciidoc:` section of an `antora.yml` document: its `attributes`
mapping (`undefined` when the key is missing). -/
structure AsciidocSection where
  attributes : Option (List (List Char × List Char))
deriving DecidableEq, Repr

/-- The fields of a parsed `antora.yml` document that this fragment reads:
`name`, `version` and `asciidoc`; each is `undefined` when missing. -/
structure AntoraDoc where
  name : Option (List Char)
  version : Option (List Char)
  asciidoc : Option AsciidocSection
deriving DecidableEq, Repr

/-- The empty object `{}` returned by `parseAntoraConfig` on a miss or parse
failure: every accessed field is `undefined`. -/
def emptyAntoraDoc : AntoraDoc := ⟨none, none, none⟩

/-- The JavaScript test `doc !== {}`: strict inequality against a freshly
allocated object literal compares references, and no pre-existing value is
reference-identical to a fresh object, so the test is `true` for every
`doc`. -/
def strictNeqFreshObject (_ : AntoraDoc) : Bool := true

/-- Function `parseAntoraConfig`: locate the config, then
`yaml.load(fs.readFileSync(path))` under `try`; a read/parse failure is
logged and yields `{}`; an absent config yields `{}`. The external read+parse
step is the parameter `parseYaml`; the second component records the errors
logged by the `catch` branch. -/
def parseAntoraConfig (parseYaml : List Char → Except JsError AntoraDoc)
    (docPath : List Char) (antoraConfigs : List (List Char)) :
    AntoraDoc × List JsError :=
  match getAntoraConfig docPath antoraConfigs with
  | some antoraConfigPath =>
    match parseYaml antoraConfigPath with
    | .ok doc => (doc, [])
    | .error err => (emptyAntoraDoc, [err])
  | none => (emptyAntoraDoc, [])

/-- Function `getAttributes`: parse the config, then
`if (doc !== {}) return doc.asciidoc.attributes else return {}`.
Reading `.attributes` when `doc.asciidoc` is `undefined` throws a
`TypeError`; the `else` branch would return the empty object. -/
def getAttributes (parseYaml : List Char → Except JsError AntoraDoc)
    (docPath : List Char) (antoraConfigs : List (List Char)) :
    Except JsError (Option (List (List Char × List Char))) :=
  let doc := (parseAntoraConfig parseYaml docPath antoraConfigs).1
  if strictNeqFreshObject doc then
    match doc.asciidoc with
    | some asciidocSection => .ok asciidocSection.attributes
    | none => .error .typeError
  else
    .ok (some [])

/-- The key of `contentCatalog.getByPath({component, version, path})`;
`component` and `version` come from document fields that may be
`undefined`. -/
structure GetByPathKey where
  component : Option (List Char)
  version : Option (List Char)
  path : List Char

/-- The `src` descriptor of a cataloged file, with the fields this fragment
projects out, plus the `abspath` read by `resolveAntoraResourceIds`. -/
structure SrcDescriptor where
  component : List Char
  version : List Char
  module : List Char
  family : List Char
  relative : List Char
  abspath : List Char
deriving DecidableEq, Repr

/-- A file or resource returned by a catalog query. -/
structure CatalogFile where
  src : SrcDescriptor
deriving DecidableEq, Repr

/-- The `{component, version, module}` context passed to
`contentCatalog.resolveResource`. -/
structure ResolveContext where
  component : Option (List Char)
  version : Option (List Char)
  module : Option (List Char)

/-- The external content catalog, consumed only through its two query
methods: `getByPath` (file-or-throws) and
`resolveResource(id, context, family, permittedFamilies)`
(resource-or-undefined). -/
structure ContentCatalog where
  getByPath : GetByPathKey → Except JsError CatalogFile
  resolveResource : List Char → ResolveContext → List Char →
    List (List Char) → Option CatalogFile

/-- Splits a path on `/` (keeping empty pieces, as JavaScript `split` does). -/
def splitPath (p : List Char) : List (List Char) :=
  p.foldr
    (fun c acc =>
      match acc with
      | [] => if c = '/' then [[], []] else [[c]]
      | s :: rest => if c = '/' then [] :: s :: rest else (c :: s) :: rest)
    [[]]

/-- Length of the common segment prefix of two segment lists. -/
def commonPrefixLen : List (List Char) → List (List Char) → Nat
  | a :: as, b :: bs => if a = b then commonPrefixLen as bs + 1 else 0
  | _, _ => 0

/-- Model of Node's `path.posix.relative` for paths already in normal form
(absolute, no `.` or `..` segments, as produced by the workspace here): drop
the common leading segments, then climb with `..` for what remains of `src`
and descend into what remains of `dst`. -/
def relativePath (src dst : List Char) : List Char :=
  let f := (splitPath src).filter (fun s => !s.isEmpty)
  let t := (splitPath dst).filter (fun s => !s.isEmpty)
  let n := commonPrefixLen f t
  List.intercalate "/".data (List.replicate (f.length - n) "..".data ++ t.drop n)

/-- The five-field projection of a cataloged file's `src` that `getSrc`
returns on a hit; a miss is the empty object, modelled as `none` at the
call sites. -/
structure SrcProjection where
  component : List Char
  version : List Char
  module : List Char
  family : List Char
  relative : List Char
deriving DecidableEq, Repr

/-- Function `getSrc`: relocate and reparse the config; when it exists, and
`doc !== {} && contentCatalog !== undefined`, query
`contentCatalog.getByPath` with the `(name, version, relative path)` key
under `try`, projecting the hit and logging+absorbing any thrown lookup
failure; every miss returns the empty object (`none` here). The second
component records the errors logged by the `catch` branch. -/
def getSrc (parseYaml : List Char → Except JsError AntoraDoc)
    (docPath : List Char) (antoraConfigs : List (List Char))
    (contentCatalog : Option ContentCatalog) :
    Option SrcProjection × List JsError :=
  let antoraConfig := getAntoraConfig docPath antoraConfigs
  let doc := (parseAntoraConfig parseYaml docPath antoraConfigs).1
  match antoraConfig with
  | some antoraConfigPath =>
    let contentSourceRootPath := dirname antoraConfigPath
    if strictNeqFreshObject doc then
      match contentCatalog with
      | some catalog =>
        match catalog.getByPath
            ⟨doc.name, doc.version, relativePath contentSourceRootPath docPath⟩ with
        | .ok file =>
          (some ⟨file.src.component, file.src.version, file.src.module,
                 file.src.family, file.src.relative⟩, [])
        | .error e => (none, [e])
      | none => (none, [])
    else (none, [])
  | none => (none, [])

/-- The `src` dictionary passed to `resolveAntoraResourceIds`
(`{ [key: string]: string }`); the three keys it reads may be absent. -/
structure ResolveSrc where
  component : Option (List Char)
  version : Option (List Char)
  module : Option (List Char)

/-- The permitted-family list passed to `contentCatalog.resolveResource`. -/
def permittedFamilies : List (List Char) :=
  ["attachment".data, "example".data, "image".data, "page".data, "partial".data]

/-- Function `resolveAntoraResourceIds`: `undefined` when the catalog is absent;
otherwise resolve `id` in the `{component, version, module}` context of
`src` restricted to `permittedFamilies`, returning the resource's
`src.abspath`, or `undefined` when resolution yields no resource. -/
def resolveAntoraResourceIds (id : List Char)
    (contentCatalog : Option ContentCatalog) (src : ResolveSrc)
    (family : List Char) : Option (List Char) :=
  match contentCatalog with
  | none => none
  | some catalog =>
    match catalog.resolveResource id ⟨src.component, src.version, src.module⟩
        family permittedFamilies with
    | some resource => some resource.src.abspath
    | none => none

/-- Function `getActiveAntoraConfig`: the persisted `antoraSupportSetting` flag must
be `=== true` and the `antora.enableAntoraSupport` setting must be
`=== true`, else `undefined` (the `AntoraDisabledError` throw is commented
out in the source); when both hold, delegate to `getAntoraConfig`. The two
persisted stores are the parameters `antoraSupportSetting` and
`enableAntoraSupport`. -/
def getActiveAntoraConfig (antoraSupportSetting enableAntoraSupport : Option Bool)
    (docPath : List Char) (antoraConfigs : List (List Char)) :
    Option (List Char) :=
  if antoraSupportSetting = some true then
    if enableAntoraSupport = some true then
      getAntoraConfig docPath antoraConfigs
    else none
  else none

/-- The content-source descriptor of the playbook. -/
structure ContentSource where
  url : List Char
  branches : List Char
  startPath : List Char
deriving DecidableEq, Repr

/-- The playbook `{content: {sources}, runtime: {}, site: {}}`; the two empty
option objects are `Unit`. -/
structure Playbook where
  sources : List ContentSource
  runtime : Unit
  site : Unit
deriving DecidableEq, Repr

/-- Function `createPlaybook`: `undefined` without an active config; otherwise read
the enclosing workspace folder (`workspace.getWorkspaceFolder`, the
parameter `getWorkspaceFolder`; reading `.uri` of its `undefined` result
throws a `TypeError`) and build the single-source playbook whose `url` is
the workspace folder root, `branches` is `'HEAD'`, and `startPath` is
`path.relative(root, dirname(config))`. -/
def createPlaybook (getWorkspaceFolder : List Char → Option (List Char))
    (antoraSupportSetting enableAntoraSupport : Option Bool)
    (docPath : List Char) (antoraConfigs : List (List Char)) :
    Except JsError (Option Playbook) :=
  match getActiveAntoraConfig antoraSupportSetting enableAntoraSupport
      docPath antoraConfigs with
  | none => .ok none
  | some activeAntoraConfig =>
    let contentSourceRootPath := dirname activeAntoraConfig
    match getWorkspaceFolder activeAntoraConfig with
    | none => .error .typeError
    | some contentSourceRepositoryRootPath =>
      .ok (some
        { sources := [{ url := contentSourceRepositoryRootPath,
                        branches := "HEAD".data,
                        startPath := relativePath contentSourceRepositoryRootPath
                          contentSourceRootPath }],
          runtime := (), site := () })

section Catalog

variable {Agg : Type}

/-- The `try` body of `getContentCatalog`: build the playbook, and when it is
defined run the external `aggregateContent` then `classifyContent` pipeline
(the two function parameters, each of which may throw); an exception at any
step aborts the body and propagates, written as explicit `Except`
propagation. -/
def getContentCatalogBody (aggregateContent : Playbook → Except JsError Agg)
    (classifyContent : Playbook → Agg → Except JsError ContentCatalog)
    (getWorkspaceFolder : List Char → Option (List Char))
    (antoraSupportSetting enableAntoraSupport : Option Bool)
    (docPath : List Char) (antoraConfigs : List (List Char)) :
    Except JsError (Option ContentCatalog) :=
  match createPlaybook getWorkspaceFolder antoraSupportSetting
      enableAntoraSupport docPath antoraConfigs with
  | .error e => .error e
  | .ok none => .ok none
  | .ok (some playbook) =>
    match aggregateContent playbook with
    | .error e => .error e
    | .ok contentAggregate =>
      match classifyContent playbook contentAggregate with
      | .error e => .error e
      | .ok catalog => .ok (some catalog)

/-- Function `getContentCatalog`: the `try` body under a `catch` that swallows
`AntoraDisabledError` (returning `undefined`, unlogged) and logs then
rethrows everything else. The second component records the errors logged by
the `catch` branch. -/
def getContentCatalog (aggregateContent : Playbook → Except JsError Agg)
    (classifyContent : Playbook → Agg → Except JsError ContentCatalog)
    (getWorkspaceFolder : List Char → Option (List Char))
    (antoraSupportSetting enableAntoraSupport : Option Bool)
    (docPath : List Char) (antoraConfigs : List (List Char)) :
    Except JsError (Option ContentCatalog) × List JsError :=
  match getContentCatalogBody aggregateContent classifyContent
      getWorkspaceFolder antoraSupportSetting enableAntoraSupport
      docPath antoraConfigs with
  | .ok v => (.ok v, [])
  | .error e =>
    match e with
    | .antoraDisabled => (.ok none, [])
    | _ => (.error e, [e])

end Catalog

/-- The three outcomes of the `showInformationMessage` prompt: the two
buttons, or dismissal (which yields `undefined`). -/
inductive PromptAnswer where
  | yes : PromptAnswer
  | no : PromptAnswer
  | dismissed : PromptAnswer
deriving DecidableEq, Repr

/-- The ternary `answer === yesAnswer ? true : (answer === noAnswer ? false : undefined)`. -/
def answerEnable : PromptAnswer → Option Bool
  | .yes => some true
  | .no => some false
  | .dismissed => none

/-- The state touched by `AntoraSupportManager`: the two persisted stores
(`antoraSupportSetting` in workspace state, `antora.enableAntoraSupport` in
workspace configuration), whether the open-document listener is currently
subscribed, whether `activate()` has registered the completion provider, and
how many times the prompt has been shown. -/
structure ManagerState where
  antoraSupportSetting : Option Bool
  enableAntoraSupport : Option Bool
  listenerActive : Bool
  activated : Bool
  promptsShown : Nat
deriving DecidableEq, Repr

/-- The `AntoraSupportManager` constructor: when the persisted flag is
`=== true`, activate iff the enable setting is `=== true`; when the flag is
`undefined`, subscribe the open-document listener; otherwise do nothing. -/
def constructManager (antoraSupportSetting enableAntoraSupport : Option Bool) :
    ManagerState :=
  if antoraSupportSetting = some true then
    { antoraSupportSetting := antoraSupportSetting,
      enableAntoraSupport := enableAntoraSupport,
      listenerActive := false,
      activated := enableAntoraSupport = some true,
      promptsShown := 0 }
  else if antoraSupportSetting = none then
    { antoraSupportSetting := antoraSupportSetting,
      enableAntoraSupport := enableAntoraSupport,
      listenerActive := true,
      activated := false,
      promptsShown := 0 }
  else
    { antoraSupportSetting := antoraSupportSetting,
      enableAntoraSupport := enableAntoraSupport,
      listenerActive := false,
      activated := false,
      promptsShown := 0 }

/-- One `onDidOpenTextDocument` event: if the listener is subscribed and an
Antora config exists for the opened document, show the prompt, persist
`antoraSupportSetting := true` and the answer-derived enable value, activate
when that value is truthy, and dispose the listener; otherwise nothing
changes. -/
def onDidOpenTextDocument (antoraConfigs : List (List Char))
    (s : ManagerState) (docPath : List Char) (answer : PromptAnswer) :
    ManagerState :=
  if s.listenerActive then
    if antoraConfigExists docPath antoraConfigs then
      { antoraSupportSetting := some true,
        enableAntoraSupport := answerEnable answer,
        listenerActive := false,
        activated := s.activated || answerEnable answer = some true,
        promptsShown := s.promptsShown + 1 }
    else s
  else s

/-- The enabled check performed by `getActiveAntoraConfig` and the
constructor against the persisted state: both stored values are
`=== true`. -/
def supportEnabled (s : ManagerState) : Bool :=
  s.antoraSupportSetting = some true && s.enableAntoraSupport = some true

/-! Helper lemmas -/

theorem isPrefixOf_eq_true_iff : ∀ {l s : List Char},
    l.isPrefixOf s = true ↔ ∃ t, s = l ++ t := by
  intro l
  induction l with
  | nil => intro s; simp [List.isPrefixOf]
  | cons a l ih =>
    intro s
    cases s with
    | nil => simp [List.isPrefixOf]
    | cons b s =>
      simp only [List.isPrefixOf, Bool.and_eq_true, beq_iff_eq, ih,
        List.cons_append, List.cons.injEq]
      constructor
      · rintro ⟨rfl, t, rfl⟩
        exact ⟨t, rfl, rfl⟩
      · rintro ⟨t, rfl, rfl⟩
        exact ⟨rfl, t, rfl⟩

theorem dirname_antoraYmlAt {root : List Char} (h : root ≠ []) :
    dirname (antoraYmlAt root) = root := by
  have h1 : antoraYmlAt root = root ++ ('/' :: "antora.yml".data) := rfl
  rw [h1, dirname, List.reverse_append, List.reverse_cons, List.append_assoc,
    List.singleton_append,
    List.dropWhile_append_of_pos (by decide),
    List.dropWhile_cons_of_neg (by decide)]
  cases hr : root.reverse with
  | nil => exact absurd (by simpa using congrArg List.reverse hr) h
  | cons c cs => simpa using (congrArg List.reverse hr).symm

theorem find?_eq_some_iff_first {α : Type} (p : α → Bool) (l : List α) (c : α) :
    l.find? p = some c ↔
      ∃ l1 l2, l = l1 ++ c :: l2 ∧ p c = true ∧ ∀ x ∈ l1, p x = false := by
  induction l with
  | nil => simp
  | cons a l ih =>
    by_cases ha : p a = true
    · rw [List.find?_cons_of_pos _ ha]
      constructor
      · rintro h
        injection h with h
        exact ⟨[], l, by simp [h], h ▸ ha, by simp⟩
      · rintro ⟨l1, l2, heq, hc, hall⟩
        cases l1 with
        | nil =>
          simp only [List.nil_append, List.cons.injEq] at heq
          rw [heq.1]
        | cons b l1 =>
          simp only [List.cons_append, List.cons.injEq] at heq
          have := hall b (by simp)
          rw [← heq.1] at this
          rw [this] at ha
          cases ha
    · have ha' : p a = false := by
        cases hpa : p a
        · rfl
        · exact absurd hpa ha
      rw [List.find?_cons_of_neg _ ha, ih]
      constructor
      · rintro ⟨l1, l2, rfl, hc, hall⟩
        refine ⟨a :: l1, l2, rfl, hc, ?_⟩
        intro x hx
        rcases List.mem_cons.mp hx with rfl | hx
        · exact ha'
        · exact hall x hx
      · rintro ⟨l1, l2, heq, hc, hall⟩
        cases l1 with
        | nil =>
          simp only [List.nil_append, List.cons.injEq] at heq
          rw [heq.1] at ha'
          rw [ha'] at hc
          cases hc
        | cons b l1 =>
          simp only [List.cons_append, List.cons.injEq] at heq
          exact ⟨l1, l2, heq.2, hc, fun x hx => hall x (by simp [hx])⟩

theorem isApplicable_antoraYmlAt_iff {root docPath : List Char} (h : root ≠ []) :
    isApplicable (antoraYmlAt root) docPath = true ↔
      ∃ seg rest, seg ≠ [] ∧ (∀ c ∈ seg, c ≠ '/') ∧
        docPath = root ++ "/modules/".data ++ seg ++ "/pages/".data ++ rest := by
  rw [isApplicable, modulesPathOf, dirname_antoraYmlAt h, Bool.and_eq_true,
    isPrefixOf_eq_true_iff]
  constructor
  · rintro ⟨⟨t, rfl⟩, hm⟩
    rw [List.drop_left] at hm
    cases t with
    | nil => cases hm
    | cons c cs =>
      simp only [matchModulePages, Bool.and_eq_true, decide_eq_true_eq,
        Bool.not_eq_true', List.isEmpty_eq_false, isPrefixOf_eq_true_iff] at hm
      obtain ⟨rfl, hseg, r, hr⟩ := hm
      refine ⟨cs.takeWhile (fun ch => decide (ch ≠ '/')), r, hseg, ?_, ?_⟩
      · intro x hx
        simpa using List.mem_takeWhile_imp hx
      · have hcs : cs = cs.takeWhile (fun ch => decide (ch ≠ '/')) ++
            ("/pages/".data ++ r) := by
          rw [← hr, List.takeWhile_append_dropWhile]
        calc (root ++ "/modules".data) ++ '/' :: cs
            = (root ++ "/modules".data) ++ '/' ::
              (cs.takeWhile (fun ch => decide (ch ≠ '/')) ++ ("/pages/".data ++ r)) := by
              rw [← hcs]
          _ = root ++ "/modules/".data ++
              cs.takeWhile (fun ch => decide (ch ≠ '/')) ++ "/pages/".data ++ r := by
              simp [List.append_assoc]
  · rintro ⟨seg, rest, hseg, hnoslash, rfl⟩
    have hall : ∀ a ∈ seg, (fun ch => decide (ch ≠ '/')) a = true := by
      intro a ha
      simpa using hnoslash a ha
    have e1 : root ++ "/modules/".data ++ seg ++ "/pages/".data ++ rest =
        (root ++ "/modules".data) ++ '/' :: (seg ++ ("/pages/".data ++ rest)) := by
      simp [List.append_assoc]
    rw [e1]
    refine ⟨⟨_, rfl⟩, ?_⟩
    rw [List.drop_left]
    have e2 : seg ++ ("/pages/".data ++ rest) = seg ++ '/' :: ("pages/".data ++ rest) := rfl
    have ht : (seg ++ '/' :: ("pages/".data ++ rest)).takeWhile
        (fun ch => decide (ch ≠ '/')) = seg := by
      rw [List.takeWhile_append_of_pos hall]
      have : ('/' :: ("pages/".data ++ rest)).takeWhile
          (fun ch => decide (ch ≠ '/')) = [] := rfl
      rw [this, List.append_nil]
    have hd : (seg ++ '/' :: ("pages/".data ++ rest)).dropWhile
        (fun ch => decide (ch ≠ '/')) = "/pages/".data ++ rest := by
      rw [List.dropWhile_append_of_pos hall]
      rfl
    simp only [matchModulePages, e2, ht, hd, decide_eq_true_eq, Bool.and_eq_true,
      Bool.not_eq_true', List.isEmpty_eq_false, isPrefixOf_eq_true_iff]
    exact ⟨trivial, hseg, rest, rfl⟩

theorem getActiveAntoraConfig_eq_none_of_not_enabled
    {antoraSupportSetting enableAntoraSupport : Option Bool}
    (docPath : List Char) (antoraConfigs : List (List Char))
    (h : ¬(antoraSupportSetting = some true ∧ enableAntoraSupport = some true)) :
    getActiveAntoraConfig antoraSupportSetting enableAntoraSupport docPath
      antoraConfigs = none := by
  unfold getActiveAntoraConfig
  by_cases h1 : antoraSupportSetting = some true
  · rw [if_pos h1]
    by_cases h2 : enableAntoraSupport = some true
    · exact absurd ⟨h1, h2⟩ h
    · rw [if_neg h2]
  · rw [if_neg h1]

theorem createPlaybook_eq_ok_none
    {getWorkspaceFolder : List Char → Option (List Char)}
    {antoraSupportSetting enableAntoraSupport : Option Bool}
    {docPath : List Char} {antoraConfigs : List (List Char)}
    (h : getActiveAntoraConfig antoraSupportSetting enableAntoraSupport docPath
      antoraConfigs = none) :
    createPlaybook getWorkspaceFolder antoraSupportSetting enableAntoraSupport
      docPath antoraConfigs = .ok none := by
  unfold createPlaybook
  rw [h]

theorem getContentCatalogBody_eq_ok_none {Agg : Type}
    {aggregateContent : Playbook → Except JsError Agg}
    {classifyContent : Playbook → Agg → Except JsError ContentCatalog}
    {getWorkspaceFolder : List Char → Option (List Char)}
    {antoraSupportSetting enableAntoraSupport : Option Bool}
    {docPath : List Char} {antoraConfigs : List (List Char)}
    (h : createPlaybook getWorkspaceFolder antoraSupportSetting
      enableAntoraSupport docPath antoraConfigs = .ok none) :
    getContentCatalogBody aggregateContent classifyContent getWorkspaceFolder
      antoraSupportSetting enableAntoraSupport docPath antoraConfigs =
      .ok none := by
  unfold getContentCatalogBody
  rw [h]

theorem getContentCatalog_of_body_ok {Agg : Type}
    {aggregateContent : Playbook → Except JsError Agg}
    {classifyContent : Playbook → Agg → Except JsError ContentCatalog}
    {getWorkspaceFolder : List Char → Option (List Char)}
    {antoraSupportSetting enableAntoraSupport : Option Bool}
    {docPath : List Char} {antoraConfigs : List (List Char)}
    {v : Option ContentCatalog}
    (h : getContentCatalogBody aggregateContent classifyContent
      getWorkspaceFolder antoraSupportSetting enableAntoraSupport docPath
      antoraConfigs = .ok v) :
    getContentCatalog aggregateContent classifyContent getWorkspaceFolder
      antoraSupportSetting enableAntoraSupport docPath antoraConfigs =
      (.ok v, []) := by
  unfold getContentCatalog
  rw [h]

theorem getContentCatalogBody_of_playbook_error {Agg : Type}
    (aggregateContent : Playbook → Except JsError Agg)
    (classifyContent : Playbook → Agg → Except JsError ContentCatalog)
    (getWorkspaceFolder : List Char → Option (List Char))
    (antoraSupportSetting enableAntoraSupport : Option Bool)
    (docPath : List Char) (antoraConfigs : List (List Char)) (e : JsError)
    (h : createPlaybook getWorkspaceFolder antoraSupportSetting
      enableAntoraSupport docPath antoraConfigs = .error e) :
    getContentCatalogBody aggregateContent classifyContent getWorkspaceFolder
      antoraSupportSetting enableAntoraSupport docPath antoraConfigs =
      .error e := by
  unfold getContentCatalogBody
  rw [h]

theorem getContentCatalogBody_of_playbook_some {Agg : Type}
    (aggregateContent : Playbook → Except JsError Agg)
    (classifyContent : Playbook → Agg → Except JsError ContentCatalog)
    (getWorkspaceFolder : List Char → Option (List Char))
    (antoraSupportSetting enableAntoraSupport : Option Bool)
    (docPath : List Char) (antoraConfigs : List (List Char)) (pb : Playbook)
    (h : createPlaybook getWorkspaceFolder antoraSupportSetting
      enableAntoraSupport docPath antoraConfigs = .ok (some pb)) :
    getContentCatalogBody aggregateContent classifyContent getWorkspaceFolder
      antoraSupportSetting enableAntoraSupport docPath antoraConfigs =
      (match aggregateContent pb with
       | .error e => .error e
       | .ok a =>
         match classifyContent pb a with
         | .error e => .error e
         | .ok c => .ok (some c)) := by
  unfold getContentCatalogBody
  rw [h]

/-! Sample values used to instantiate theorems at concrete inputs -/

/-- A parsed document with `name`, `version` and `asciidoc.attributes`. -/
def sampleDoc : AntoraDoc :=
  ⟨some "comp".data, some "1.0".data, some ⟨some []⟩⟩

/-- A source descriptor of a cataloged file. -/
def sampleSrcDescriptor : SrcDescriptor :=
  ⟨"comp".data, "1.0".data, "ROOT".data, "page".data, "x.adoc".data,
    "/abs/x.adoc".data⟩

/-- A cataloged file. -/
def sampleFile : CatalogFile := ⟨sampleSrcDescriptor⟩

/-- A catalog whose `getByPath` always hits. -/
def sampleCatalog : ContentCatalog :=
  ⟨fun _ => .ok sampleFile, fun _ _ _ _ => none⟩

/-- A catalog whose `getByPath` always throws. -/
def failingCatalog : ContentCatalog :=
  ⟨fun _ => .error (.other "miss".data), fun _ _ _ _ => none⟩

/-- A sample document path inside the module tree of `wConfigs`. -/
def wDocPath : List Char := "root/modules/m/pages/x.adoc".data

/-- A workspace with one applicable configuration file. -/
def wConfigs : List (List Char) := ["root/antora.yml".data]

/-- A workspace-folder lookup rooted at `/ws`. -/
def wGwf : List Char → Option (List Char) := fun _ => some "/ws".data

/-- A YAML read+parse step that always yields `sampleDoc`. -/
def wParseYaml : List Char → Except JsError AntoraDoc := fun _ => .ok sampleDoc

/-- An aggregation step that always succeeds. -/
def wAggregateOk : Playbook → Except JsError Unit := fun _ => .ok ()

/-- An aggregation step that always throws an ordinary error. -/
def wAggregateFail : Playbook → Except JsError Unit :=
  fun _ => .error (.other "boom".data)

/-- A classification step that always yields `sampleCatalog`. -/
def wClassify : Playbook → Unit → Except JsError ContentCatalog :=
  fun _ _ => .ok sampleCatalog

/-! Claim theorems -/

/-- C1: for every document path and candidate configuration file at
`root/antora.yml`, `getAntoraConfig` treats the candidate as applicable iff
the document path is `root/modules/<nonempty-segment>/pages/<anything>` (in
particular `root/modules/pages/x` and `root/modules/m/notpages/x` are
rejected), and it returns the first applicable candidate in search order, or
none when no candidate is applicable. -/
theorem getAntoraConfig_first_applicable (root docPath : List Char)
    (hroot : root ≠ []) (antoraConfigs : List (List Char)) :
    (isApplicable (antoraYmlAt root) docPath = true ↔
       ∃ seg rest, seg ≠ [] ∧ (∀ c ∈ seg, c ≠ '/') ∧
         docPath = root ++ "/modules/".data ++ seg ++ "/pages/".data ++ rest) ∧
    isApplicable (antoraYmlAt "root".data) "root/modules/pages/x".data = false ∧
    isApplicable (antoraYmlAt "root".data) "root/modules/m/notpages/x".data = false ∧
    (∀ c, getAntoraConfig docPath antoraConfigs = some c ↔
       ∃ pre post, antoraConfigs = pre ++ c :: post ∧
         isApplicable c docPath = true ∧
         ∀ c' ∈ pre, isApplicable c' docPath = false) ∧
    (getAntoraConfig docPath antoraConfigs = none ↔
       ∀ c ∈ antoraConfigs, isApplicable c docPath = false) := by
  refine ⟨isApplicable_antoraYmlAt_iff hroot, by decide, by decide, ?_, ?_⟩
  · intro c
    exact find?_eq_some_iff_first (fun c => isApplicable c docPath) antoraConfigs c
  · unfold getAntoraConfig
    rw [List.find?_eq_none]
    constructor
    · intro h c hc
      simpa using h c hc
    · intro h c hc
      simp [h c hc]

/-- C1 witness: the characterization instantiated on a two-candidate
workspace. -/
theorem getAntoraConfig_first_applicable_witness :
    ("root".data ≠ []) ∧
    ((isApplicable (antoraYmlAt "root".data) "root/modules/m/pages/x.adoc".data = true ↔
       ∃ seg rest, seg ≠ [] ∧ (∀ c ∈ seg, c ≠ '/') ∧
         "root/modules/m/pages/x.adoc".data =
           "root".data ++ "/modules/".data ++ seg ++ "/pages/".data ++ rest) ∧
     isApplicable (antoraYmlAt "root".data) "root/modules/pages/x".data = false ∧
     isApplicable (antoraYmlAt "root".data) "root/modules/m/notpages/x".data = false ∧
     (∀ c, getAntoraConfig "root/modules/m/pages/x.adoc".data
         ["a/antora.yml".data, "root/antora.yml".data] = some c ↔
       ∃ pre post,
         ["a/antora.yml".data, "root/antora.yml".data] = pre ++ c :: post ∧
         isApplicable c "root/modules/m/pages/x.adoc".data = true ∧
         ∀ c' ∈ pre, isApplicable c' "root/modules/m/pages/x.adoc".data = false) ∧
     (getAntoraConfig "root/modules/m/pages/x.adoc".data
         ["a/antora.yml".data, "root/antora.yml".data] = none ↔
       ∀ c ∈ ["a/antora.yml".data, "root/antora.yml".data],
         isApplicable c "root/modules/m/pages/x.adoc".data = false)) :=
  ⟨by decide, getAntoraConfig_first_applicable "root".data
    "root/modules/m/pages/x.adoc".data (by decide)
    ["a/antora.yml".data, "root/antora.yml".data]⟩

/-- C5: `resolveAntoraResourceIds` returns none when the catalog is absent;
otherwise it resolves the identifier in the `{component, version, module}`
context of the source identity with the allowed family set exactly
`{attachment, example, image, page, partial}`, returning the resolved
resource's absolute path, or none when resolution yields no resource. -/
theorem resolveAntoraResourceIds_families (id : List Char)
    (catalog : ContentCatalog) (src : ResolveSrc) (family : List Char) :
    resolveAntoraResourceIds id none src family = none ∧
    resolveAntoraResourceIds id (some catalog) src family =
      (catalog.resolveResource id ⟨src.component, src.version, src.module⟩
        family ["attachment".data, "example".data, "image".data, "page".data,
          "partial".data]).map (fun r => r.src.abspath) := by
  refine ⟨rfl, ?_⟩
  have e : ["attachment".data, "example".data, "image".data, "page".data,
      "partial".data] = permittedFamilies := rfl
  rw [e]
  show (match catalog.resolveResource id
      ⟨src.component, src.version, src.module⟩ family permittedFamilies with
    | some resource => some resource.src.abspath
    | none => none) =
    (catalog.resolveResource id ⟨src.component, src.version, src.module⟩
      family permittedFamilies).map (fun r => r.src.abspath)
  cases catalog.resolveResource id ⟨src.component, src.version, src.module⟩
      family permittedFamilies with
  | none => rfl
  | some r => rfl

/-- C6: `parseAntoraConfig` returns the empty structure when no configuration
file is locatable, and logs the failure and returns the empty structure when
the located file fails to read or parse; it never raises (its result type
carries no exception). -/
theorem parseAntoraConfig_never_raises
    (parseYaml : List Char → Except JsError AntoraDoc)
    (docPath : List Char) (antoraConfigs : List (List Char)) :
    (getAntoraConfig docPath antoraConfigs = none →
      parseAntoraConfig parseYaml docPath antoraConfigs = (emptyAntoraDoc, [])) ∧
    (∀ cfg e, getAntoraConfig docPath antoraConfigs = some cfg →
      parseYaml cfg = .error e →
      parseAntoraConfig parseYaml docPath antoraConfigs = (emptyAntoraDoc, [e])) := by
  constructor
  · intro h
    unfold parseAntoraConfig
    rw [h]
  · intro cfg e h1 h2
    unfold parseAntoraConfig
    rw [h1]
    show (match parseYaml cfg with
      | Except.ok doc => (doc, [])
      | Except.error err => (emptyAntoraDoc, [err])) = (emptyAntoraDoc, [e])
    rw [h2]

/-- C6 witness: an absent configuration and an unparsable one, both yielding
the empty structure. -/
theorem parseAntoraConfig_never_raises_witness :
    ((getAntoraConfig "doc.adoc".data [] = none) ∧
      parseAntoraConfig (fun _ => .error (.other "bad".data)) "doc.adoc".data [] =
        (emptyAntoraDoc, [])) ∧
    ((getAntoraConfig "root/modules/m/pages/x.adoc".data ["root/antora.yml".data] =
        some "root/antora.yml".data) ∧
      ((fun _ : List Char =>
          (Except.error (JsError.other "bad".data) : Except JsError AntoraDoc))
        "root/antora.yml".data = Except.error (JsError.other "bad".data)) ∧
      parseAntoraConfig (fun _ => .error (.other "bad".data))
        "root/modules/m/pages/x.adoc".data ["root/antora.yml".data] =
        (emptyAntoraDoc, [.other "bad".data])) :=
  ⟨⟨rfl, (parseAntoraConfig_never_raises (fun _ => .error (.other "bad".data))
      "doc.adoc".data []).1 rfl⟩,
   ⟨rfl, rfl, (parseAntoraConfig_never_raises (fun _ => .error (.other "bad".data))
      "root/modules/m/pages/x.adoc".data ["root/antora.yml".data]).2
      "root/antora.yml".data (.other "bad".data) rfl rfl⟩⟩

/-- C9: the guard `doc !== {}` of `getAttributes` is an object-identity
comparison that is always true, so on an absent or unparsable configuration
(where `parseAntoraConfig` yields the empty structure) `getAttributes` does
not return an empty mapping: it evaluates `doc.asciidoc.attributes` and
throws a `TypeError` instead of reaching its else branch. -/
theorem getAttributes_guard_always_true
    (parseYaml : List Char → Except JsError AntoraDoc)
    (docPath : List Char) (antoraConfigs : List (List Char))
    (h : (parseAntoraConfig parseYaml docPath antoraConfigs).1 = emptyAntoraDoc) :
    (∀ d : AntoraDoc, strictNeqFreshObject d = true) ∧
    getAttributes parseYaml docPath antoraConfigs = .error .typeError := by
  refine ⟨fun _ => rfl, ?_⟩
  unfold getAttributes
  rw [h]
  rfl

/-- C2: when the persisted opt-in state is not enabled (the decided flag is
unset, or it is set but the enable setting is not true), `getContentCatalog`
returns no catalog (`undefined`) rather than raising, even if a valid
`antora.yml` exists for the document. -/
theorem getContentCatalog_disabled_no_catalog {Agg : Type}
    (aggregateContent : Playbook → Except JsError Agg)
    (classifyContent : Playbook → Agg → Except JsError ContentCatalog)
    (getWorkspaceFolder : List Char → Option (List Char))
    (antoraSupportSetting enableAntoraSupport : Option Bool)
    (docPath : List Char) (antoraConfigs : List (List Char))
    (h : antoraSupportSetting = none ∨
      (antoraSupportSetting = some true ∧ enableAntoraSupport ≠ some true)) :
    getContentCatalog aggregateContent classifyContent getWorkspaceFolder
      antoraSupportSetting enableAntoraSupport docPath antoraConfigs =
      (.ok none, []) := by
  have hne : ¬(antoraSupportSetting = some true ∧ enableAntoraSupport = some true) := by
    rcases h with h1 | ⟨h1, h2⟩
    · rintro ⟨hc, -⟩
      rw [h1] at hc
      cases hc
    · rintro ⟨-, hc⟩
      exact h2 hc
  exact getContentCatalog_of_body_ok
    (getContentCatalogBody_eq_ok_none
      (createPlaybook_eq_ok_none
        (getActiveAntoraConfig_eq_none_of_not_enabled docPath antoraConfigs hne)))

/-- C2 witness: undecided flag, enable setting true, an applicable
configuration in the workspace; still no catalog. -/
theorem getContentCatalog_disabled_no_catalog_witness :
    (antoraConfigExists wDocPath wConfigs = true) ∧
    ((none : Option Bool) = none ∨
      ((none : Option Bool) = some true ∧ (some true : Option Bool) ≠ some true)) ∧
    getContentCatalog wAggregateOk wClassify wGwf none (some true) wDocPath
      wConfigs = (.ok none, []) :=
  ⟨rfl, Or.inl rfl,
    getContentCatalog_disabled_no_catalog wAggregateOk wClassify wGwf none
      (some true) wDocPath wConfigs (Or.inl rfl)⟩

/-- C3: an exception raised by the pipeline inside `getContentCatalog` is
logged and rethrown to the caller, except the internal `AntoraDisabledError`
signal, which is swallowed (unlogged) and reported as no catalog. -/
theorem getContentCatalog_logs_and_rethrows {Agg : Type}
    (aggregateContent : Playbook → Except JsError Agg)
    (classifyContent : Playbook → Agg → Except JsError ContentCatalog)
    (getWorkspaceFolder : List Char → Option (List Char))
    (antoraSupportSetting enableAntoraSupport : Option Bool)
    (docPath : List Char) (antoraConfigs : List (List Char)) (e : JsError)
    (h : getContentCatalogBody aggregateContent classifyContent
      getWorkspaceFolder antoraSupportSetting enableAntoraSupport docPath
      antoraConfigs = .error e) :
    getContentCatalog aggregateContent classifyContent getWorkspaceFolder
      antoraSupportSetting enableAntoraSupport docPath antoraConfigs =
      (if e = .antoraDisabled then (.ok none, []) else (.error e, [e])) := by
  unfold getContentCatalog
  rw [h]
  cases e with
  | antoraDisabled => rfl
  | typeError => rfl
  | other m => rfl

/-- C3 witness: an aggregation failure is rethrown and logged. -/
theorem getContentCatalog_logs_and_rethrows_witness :
    (getContentCatalogBody wAggregateFail wClassify wGwf (some true) (some true)
      wDocPath wConfigs = .error (.other "boom".data)) ∧
    getContentCatalog wAggregateFail wClassify wGwf (some true) (some true)
      wDocPath wConfigs =
      (if JsError.other "boom".data = .antoraDisabled then (.ok none, [])
       else (.error (.other "boom".data), [.other "boom".data])) :=
  ⟨rfl, getContentCatalog_logs_and_rethrows wAggregateFail wClassify wGwf
    (some true) (some true) wDocPath wConfigs (.other "boom".data) rfl⟩

/-- C8: with support active, `createPlaybook` builds a playbook whose single
content source has `url` the enclosing workspace folder root, `branches` the
fixed marker `HEAD`, and `startPath` the relative path from that root to the
configuration file's directory, with empty runtime and site options; with
support not active it yields no playbook. -/
theorem createPlaybook_content_source
    (getWorkspaceFolder : List Char → Option (List Char))
    (antoraSupportSetting enableAntoraSupport : Option Bool)
    (docPath : List Char) (antoraConfigs : List (List Char)) :
    (∀ activeCfg folderRoot,
      getActiveAntoraConfig antoraSupportSetting enableAntoraSupport docPath
        antoraConfigs = some activeCfg →
      getWorkspaceFolder activeCfg = some folderRoot →
      createPlaybook getWorkspaceFolder antoraSupportSetting enableAntoraSupport
        docPath antoraConfigs =
        .ok (some ⟨[⟨folderRoot, "HEAD".data,
          relativePath folderRoot (dirname activeCfg)⟩], (), ()⟩)) ∧
    (getActiveAntoraConfig antoraSupportSetting enableAntoraSupport docPath
        antoraConfigs = none →
      createPlaybook getWorkspaceFolder antoraSupportSetting enableAntoraSupport
        docPath antoraConfigs = .ok none) := by
  constructor
  · intro activeCfg folderRoot h1 h2
    simp only [createPlaybook, h1, h2]
  · intro h
    simp only [createPlaybook, h]

/-- C8 witness: enabled state, applicable configuration, workspace folder
`/ws`; the playbook holds exactly the derived content source. -/
theorem createPlaybook_content_source_witness :
    (getActiveAntoraConfig (some true) (some true) wDocPath wConfigs =
      some "root/antora.yml".data) ∧
    (wGwf "root/antora.yml".data = some "/ws".data) ∧
    (createPlaybook wGwf (some true) (some true) wDocPath wConfigs =
      .ok (some ⟨[⟨"/ws".data, "HEAD".data,
        relativePath "/ws".data (dirname "root/antora.yml".data)⟩], (), ()⟩)) ∧
    (getActiveAntoraConfig none (some true) wDocPath wConfigs = none) ∧
    (createPlaybook wGwf none (some true) wDocPath wConfigs = .ok none) :=
  ⟨rfl, rfl,
    (createPlaybook_content_source wGwf (some true) (some true) wDocPath
      wConfigs).1 "root/antora.yml".data "/ws".data rfl rfl,
    rfl,
    (createPlaybook_content_source wGwf none (some true) wDocPath wConfigs).2 rfl⟩

/-- C4: `getSrc` returns an empty object on any miss (catalog absent,
configuration absent, or lookup throws) without propagating the failure, and
when the catalog holds an entry for the `(component, version, relative
path)` key derived from the document and its configuration, it returns
exactly the `{component, version, module, family, relative}` projection of
that entry's source descriptor. -/
theorem getSrc_misses_and_hit (parseYaml : List Char → Except JsError AntoraDoc)
    (docPath : List Char) (antoraConfigs : List (List Char)) :
    (∀ contentCatalog, getAntoraConfig docPath antoraConfigs = none →
      getSrc parseYaml docPath antoraConfigs contentCatalog = (none, [])) ∧
    (getSrc parseYaml docPath antoraConfigs none = (none, [])) ∧
    (∀ cfg catalog e, getAntoraConfig docPath antoraConfigs = some cfg →
      catalog.getByPath
        ⟨(parseAntoraConfig parseYaml docPath antoraConfigs).1.name,
         (parseAntoraConfig parseYaml docPath antoraConfigs).1.version,
         relativePath (dirname cfg) docPath⟩ = .error e →
      getSrc parseYaml docPath antoraConfigs (some catalog) = (none, [e])) ∧
    (∀ cfg catalog file, getAntoraConfig docPath antoraConfigs = some cfg →
      catalog.getByPath
        ⟨(parseAntoraConfig parseYaml docPath antoraConfigs).1.name,
         (parseAntoraConfig parseYaml docPath antoraConfigs).1.version,
         relativePath (dirname cfg) docPath⟩ = .ok file →
      getSrc parseYaml docPath antoraConfigs (some catalog) =
        (some ⟨file.src.component, file.src.version, file.src.module,
               file.src.family, file.src.relative⟩, [])) := by
  refine ⟨?_, ?_, ?_, ?_⟩
  · intro contentCatalog h
    simp only [getSrc, h]
  · cases hc : getAntoraConfig docPath antoraConfigs with
    | none => simp only [getSrc, hc]
    | some cfg => simp only [getSrc, hc, strictNeqFreshObject, if_true]
  · intro cfg catalog e h1 h2
    simp only [getSrc, h1, strictNeqFreshObject, if_true, h2]
  · intro cfg catalog file h1 h2
    simp only [getSrc, h1, strictNeqFreshObject, if_true, h2]

/-- C4 witness: configuration absent, catalog absent, throwing lookup, and a
matching entry, each with the stated result. -/
theorem getSrc_misses_and_hit_witness :
    ((getAntoraConfig "doc.adoc".data [] = none) ∧
      getSrc wParseYaml "doc.adoc".data [] (some sampleCatalog) = (none, [])) ∧
    (getSrc wParseYaml wDocPath wConfigs none = (none, [])) ∧
    ((getAntoraConfig wDocPath wConfigs = some "root/antora.yml".data) ∧
      (failingCatalog.getByPath
        ⟨(parseAntoraConfig wParseYaml wDocPath wConfigs).1.name,
         (parseAntoraConfig wParseYaml wDocPath wConfigs).1.version,
         relativePath (dirname "root/antora.yml".data) wDocPath⟩ =
        .error (.other "miss".data)) ∧
      getSrc wParseYaml wDocPath wConfigs (some failingCatalog) =
        (none, [.other "miss".data])) ∧
    ((sampleCatalog.getByPath
        ⟨(parseAntoraConfig wParseYaml wDocPath wConfigs).1.name,
         (parseAntoraConfig wParseYaml wDocPath wConfigs).1.version,
         relativePath (dirname "root/antora.yml".data) wDocPath⟩ =
        .ok sampleFile) ∧
      getSrc wParseYaml wDocPath wConfigs (some sampleCatalog) =
        (some ⟨sampleFile.src.component, sampleFile.src.version,
               sampleFile.src.module, sampleFile.src.family,
               sampleFile.src.relative⟩, [])) :=
  ⟨⟨rfl, (getSrc_misses_and_hit wParseYaml "doc.adoc".data []).1
      (some sampleCatalog) rfl⟩,
   (getSrc_misses_and_hit wParseYaml wDocPath wConfigs).2.1,
   ⟨rfl, rfl, (getSrc_misses_and_hit wParseYaml wDocPath wConfigs).2.2.1
      "root/antora.yml".data failingCatalog (.other "miss".data) rfl rfl⟩,
   ⟨rfl, (getSrc_misses_and_hit wParseYaml wDocPath wConfigs).2.2.2
      "root/antora.yml".data sampleCatalog sampleFile rfl rfl⟩⟩

/-- C7: from the undecided state, after a Yes answer to the one prompt, the
persisted state reports enabled on every subsequent check, support is
activated, and the prompt is never shown again in the session: the
open-document listener is unsubscribed after the first decision, whatever
the answer. -/
theorem optInGate_yes_enables_once (enableSetting0 : Option Bool)
    (docPath : List Char) (antoraConfigs : List (List Char))
    (hexists : antoraConfigExists docPath antoraConfigs = true) :
    supportEnabled (onDidOpenTextDocument antoraConfigs
      (constructManager none enableSetting0) docPath .yes) = true ∧
    (onDidOpenTextDocument antoraConfigs (constructManager none enableSetting0)
      docPath .yes).activated = true ∧
    (∀ answer, (onDidOpenTextDocument antoraConfigs
      (constructManager none enableSetting0) docPath answer).listenerActive =
      false) ∧
    (∀ d answer, onDidOpenTextDocument antoraConfigs
        (onDidOpenTextDocument antoraConfigs (constructManager none enableSetting0)
          docPath .yes) d answer =
      onDidOpenTextDocument antoraConfigs (constructManager none enableSetting0)
        docPath .yes) ∧
    (onDidOpenTextDocument antoraConfigs (constructManager none enableSetting0)
      docPath .yes).promptsShown = 1 := by
  have hcm : constructManager none enableSetting0 =
      ⟨none, enableSetting0, true, false, 0⟩ := by
    unfold constructManager
    simp
  have hs1 : onDidOpenTextDocument antoraConfigs
      (constructManager none enableSetting0) docPath .yes =
      ⟨some true, some true, false, true, 1⟩ := by
    rw [hcm]
    unfold onDidOpenTextDocument
    simp [hexists, answerEnable]
  refine ⟨?_, ?_, ?_, ?_, ?_⟩
  · rw [hs1]
    rfl
  · rw [hs1]
  · intro answer
    rw [hcm]
    unfold onDidOpenTextDocument
    simp [hexists]
  · intro d answer
    rw [hs1]
    unfold onDidOpenTextDocument
    simp
  · rw [hs1]

/-- C7 witness: undecided state, applicable configuration, Yes answer. -/
theorem optInGate_yes_enables_once_witness :
    (antoraConfigExists wDocPath wConfigs = true) ∧
    supportEnabled (onDidOpenTextDocument wConfigs
      (constructManager none none) wDocPath .yes) = true ∧
    (onDidOpenTextDocument wConfigs (constructManager none none)
      wDocPath .yes).activated = true ∧
    (∀ answer, (onDidOpenTextDocument wConfigs
      (constructManager none none) wDocPath answer).listenerActive = false) ∧
    (∀ d answer, onDidOpenTextDocument wConfigs
        (onDidOpenTextDocument wConfigs (constructManager none none)
          wDocPath .yes) d answer =
      onDidOpenTextDocument wConfigs (constructManager none none)
        wDocPath .yes) ∧
    (onDidOpenTextDocument wConfigs (constructManager none none)
      wDocPath .yes).promptsShown = 1 :=
  ⟨rfl, optInGate_yes_enables_once none wDocPath wConfigs rfl⟩

/-- C10: no operation of the fragment throws the internal
`AntoraDisabledError` (`getActiveAntoraConfig` returns `undefined`
instead), so as long as the external pipeline steps do not throw it, the
swallowing branch of `getContentCatalog` is unreachable — the catch is the
identity on the body's outcome — and the no-catalog result for disabled
support arises solely from `createPlaybook` receiving an undefined active
configuration. -/
theorem antoraDisabledError_unreachable {Agg : Type}
    (aggregateContent : Playbook → Except JsError Agg)
    (classifyContent : Playbook → Agg → Except JsError ContentCatalog)
    (getWorkspaceFolder : List Char → Option (List Char))
    (antoraSupportSetting enableAntoraSupport : Option Bool)
    (docPath : List Char) (antoraConfigs : List (List Char))
    (h1 : ∀ pb, aggregateContent pb ≠ .error .antoraDisabled)
    (h2 : ∀ pb a, classifyContent pb a ≠ .error .antoraDisabled) :
    (createPlaybook getWorkspaceFolder antoraSupportSetting enableAntoraSupport
        docPath antoraConfigs ≠ .error .antoraDisabled) ∧
    (getContentCatalogBody aggregateContent classifyContent getWorkspaceFolder
        antoraSupportSetting enableAntoraSupport docPath antoraConfigs ≠
      .error .antoraDisabled) ∧
    (getContentCatalog aggregateContent classifyContent getWorkspaceFolder
        antoraSupportSetting enableAntoraSupport docPath antoraConfigs =
      (match getContentCatalogBody aggregateContent classifyContent
          getWorkspaceFolder antoraSupportSetting enableAntoraSupport docPath
          antoraConfigs with
       | .ok v => (.ok v, [])
       | .error e => (.error e, [e]))) ∧
    (¬(antoraSupportSetting = some true ∧ enableAntoraSupport = some true) →
      getActiveAntoraConfig antoraSupportSetting enableAntoraSupport docPath
          antoraConfigs = none ∧
      createPlaybook getWorkspaceFolder antoraSupportSetting enableAntoraSupport
          docPath antoraConfigs = .ok none ∧
      getContentCatalog aggregateContent classifyContent getWorkspaceFolder
          antoraSupportSetting enableAntoraSupport docPath antoraConfigs =
        (.ok none, [])) := by
  have hcp : createPlaybook getWorkspaceFolder antoraSupportSetting
      enableAntoraSupport docPath antoraConfigs ≠ .error .antoraDisabled := by
    cases hga : getActiveAntoraConfig antoraSupportSetting enableAntoraSupport
        docPath antoraConfigs with
    | none => simp [createPlaybook, hga]
    | some c =>
      cases hw : getWorkspaceFolder c with
      | none => simp [createPlaybook, hga, hw]
      | some w => simp [createPlaybook, hga, hw]
  have hbody : getContentCatalogBody aggregateContent classifyContent
      getWorkspaceFolder antoraSupportSetting enableAntoraSupport docPath
      antoraConfigs ≠ .error .antoraDisabled := by
    cases hcp' : createPlaybook getWorkspaceFolder antoraSupportSetting
        enableAntoraSupport docPath antoraConfigs with
    | error e =>
      rw [getContentCatalogBody_of_playbook_error aggregateContent
        classifyContent getWorkspaceFolder antoraSupportSetting
        enableAntoraSupport docPath antoraConfigs e hcp']
      intro hh
      injection hh with hh
      rw [hcp'] at hcp
      exact hcp (by rw [hh])
    | ok playbook =>
      cases playbook with
      | none =>
        rw [getContentCatalogBody_eq_ok_none hcp']
        simp
      | some pb =>
        rw [getContentCatalogBody_of_playbook_some aggregateContent
          classifyContent getWorkspaceFolder antoraSupportSetting
          enableAntoraSupport docPath antoraConfigs pb hcp']
        cases hag : aggregateContent pb with
        | error ea =>
          intro hh
          injection hh with hh
          exact h1 pb (by rw [hag, hh])
        | ok a =>
          show ¬ (match classifyContent pb a with
            | Except.error e => (Except.error e : Except JsError (Option ContentCatalog))
            | Except.ok c => Except.ok (some c)) = Except.error JsError.antoraDisabled
          cases hcl : classifyContent pb a with
          | error ec =>
            intro hh
            injection hh with hh
            exact h2 pb a (by rw [hcl, hh])
          | ok c => simp
  refine ⟨hcp, hbody, ?_, ?_⟩
  · cases hb : getContentCatalogBody aggregateContent classifyContent
        getWorkspaceFolder antoraSupportSetting enableAntoraSupport docPath
        antoraConfigs with
    | ok v =>
      unfold getContentCatalog
      rw [hb]
    | error e =>
      rw [hb] at hbody
      unfold getContentCatalog
      rw [hb]
      cases e with
      | antoraDisabled => exact absurd rfl hbody
      | typeError => rfl
      | other m => rfl
  · intro hnd
    have hga := getActiveAntoraConfig_eq_none_of_not_enabled docPath
      antoraConfigs hnd
    have hpb := @createPlaybook_eq_ok_none getWorkspaceFolder
      antoraSupportSetting enableAntoraSupport docPath antoraConfigs hga
    exact ⟨hga, hpb, getContentCatalog_of_body_ok
      (getContentCatalogBody_eq_ok_none hpb)⟩

/-- C10 witness: pipeline steps that never throw the internal signal, with
support disabled: the catch is the identity and the no-catalog result comes
from the undefined playbook. -/
theorem antoraDisabledError_unreachable_witness :
    (∀ pb, wAggregateOk pb ≠ .error .antoraDisabled) ∧
    (∀ pb a, wClassify pb a ≠ .error .antoraDisabled) ∧
    ((createPlaybook wGwf (some true) (some false) wDocPath wConfigs ≠
        .error .antoraDisabled) ∧
     (getContentCatalogBody wAggregateOk wClassify wGwf (some true) (some false)
        wDocPath wConfigs ≠ .error .antoraDisabled) ∧
     (getContentCatalog wAggregateOk wClassify wGwf (some true) (some false)
        wDocPath wConfigs =
       (match getContentCatalogBody wAggregateOk wClassify wGwf (some true)
           (some false) wDocPath wConfigs with
        | .ok v => (.ok v, [])
        | .error e => (.error e, [e]))) ∧
     (¬((some true : Option Bool) = some true ∧
          (some false : Option Bool) = some true) →
       getActiveAntoraConfig (some true) (some false) wDocPath wConfigs = none ∧
       createPlaybook wGwf (some true) (some false) wDocPath wConfigs =
         .ok none ∧
       getContentCatalog wAggregateOk wClassify wGwf (some true) (some false)
         wDocPath wConfigs = (.ok none, []))) := by
  refine ⟨?_, ?_, ?_⟩
  · intro pb h
    simp [wAggregateOk] at h
  · intro pb a h
    simp [wClassify] at h
  · exact antoraDisabledError_unreachable wAggregateOk wClassify wGwf
      (some true) (some false) wDocPath wConfigs
      (fun pb h => by simp [wAggregateOk] at h)
      (fun pb a h => by simp [wClassify] at h)

/-- C9 witness: with no locatable configuration, `getAttributes` throws. -/
theorem getAttributes_guard_always_true_witness :
    ((parseAntoraConfig (fun _ => .ok emptyAntoraDoc) "doc.adoc".data []).1 =
      emptyAntoraDoc) ∧
    (∀ d : AntoraDoc, strictNeqFreshObject d = true) ∧
    getAttributes (fun _ => .ok emptyAntoraDoc) "doc.adoc".data [] =
      .error .typeError :=
  ⟨rfl, (getAttributes_guard_always_true (fun _ => .ok emptyAntoraDoc)
      "doc.adoc".data [] rfl).1,
    (getAttributes_guard_always_true (fun _ => .ok emptyAntoraDoc)
      "doc.adoc".data [] rfl).2⟩

end AntoraSupport
